import Mathlib

/-!
Verification of the account configuration resolution subsystem of the
neverest mail synchronization tool (`src/account/config.rs`).

The repository's own types and functions (`AccountConfig`, `FolderConfig`,
`EnvelopeConfig`, `BackendGlobalConfig`, `BackendConfig`, the per-entity
backend override wrappers, `AccountConfig::configure` and
`BackendGlobalConfig::into_account_config`) are embedded directly from the
source.  Types and operations of the external `email` crate (the leaf
permission/filter value types, the engine-facing account configuration, and
the credential-store operation `replace_undefined_keyring_entries`) are not
part of this repository; they are modelled from the spec, as marked in
their doc comments.
-/

namespace Neverest

/-- Modelled from the spec: the external folder sync strategy filter, a leaf
value type with its own default value, selecting which folders participate
in synchronization. -/
inductive FolderSyncStrategy : Type
  | all : FolderSyncStrategy
  | incl (folders : List String) : FolderSyncStrategy
  | excl (folders : List String) : FolderSyncStrategy
deriving DecidableEq

instance : Inhabited FolderSyncStrategy := ⟨FolderSyncStrategy.all⟩

/-- Modelled from the spec: the external envelope sync filters, a leaf value
type with its own default value, selecting which envelopes participate in
synchronization. -/
structure EnvelopeSyncFilters : Type where
  incl : List String
deriving DecidableEq

instance : Inhabited EnvelopeSyncFilters := ⟨⟨[]⟩⟩

/-- Modelled from the spec: the external folder sync permission set, a leaf
value type with its own default value. -/
structure FolderSyncPermissions : Type where
  create : Bool
  delete : Bool
deriving DecidableEq

instance : Inhabited FolderSyncPermissions := ⟨⟨true, true⟩⟩

/-- Modelled from the spec: the external flag sync permission set, a leaf
value type with its own default value. -/
structure FlagSyncPermissions : Type where
  update : Bool
deriving DecidableEq

instance : Inhabited FlagSyncPermissions := ⟨⟨true⟩⟩

/-- Modelled from the spec: the external message sync permission set, a leaf
value type with its own default value. -/
structure MessageSyncPermissions : Type where
  create : Bool
  delete : Bool
deriving DecidableEq

instance : Inhabited MessageSyncPermissions := ⟨⟨true, true⟩⟩

/-- Modelled from the spec: a secret-storage reference held by an
authentication sub-configuration, either still undefined or a defined
reference. -/
inductive KeyringEntry : Type
  | undefined : KeyringEntry
  | defined (secret : String) : KeyringEntry
deriving DecidableEq

/-- Modelled from the spec: the authentication sub-configuration of the IMAP
backend, holding its secret-storage entries. -/
structure ImapAuthConfig : Type where
  entries : List KeyringEntry
deriving DecidableEq

/-- Modelled from the spec: the external IMAP backend configuration, carrying
connection data plus the authentication sub-configuration. -/
structure ImapConfig : Type where
  host : String
  port : Nat
  auth : ImapAuthConfig
deriving DecidableEq

/-- Modelled from the spec: the external Maildir backend configuration,
rooted at a local filesystem path; it has no authentication concept. -/
structure MaildirConfig : Type where
  root_dir : String
deriving DecidableEq

/-- Modelled from the spec: the external Notmuch backend configuration,
rooted at a local search-index path; it has no authentication concept. -/
structure NotmuchConfig : Type where
  db_path : String
deriving DecidableEq

/-- The backend-specific configuration (`BackendConfig` in
`src/account/config.rs`): a tagged union over the compiled-in backends. -/
inductive BackendConfig : Type
  | imap (config : ImapConfig) : BackendConfig
  | maildir (config : MaildirConfig) : BackendConfig
  | notmuch (config : NotmuchConfig) : BackendConfig
deriving DecidableEq

/-- `FolderConfig` from `src/account/config.rs`: the account configuration
dedicated to folders. -/
structure FolderConfig : Type where
  filter : FolderSyncStrategy
deriving DecidableEq

/-- `EnvelopeConfig` from `src/account/config.rs`: the account configuration
dedicated to envelopes. -/
structure EnvelopeConfig : Type where
  filter : EnvelopeSyncFilters
deriving DecidableEq

/-- `FolderBackendConfig` from `src/account/config.rs`: the optional folder
permissions override of one side. -/
structure FolderBackendConfig : Type where
  permissions : FolderSyncPermissions
deriving DecidableEq

/-- `FlagBackendConfig` from `src/account/config.rs`: the optional flag
permissions override of one side. -/
structure FlagBackendConfig : Type where
  permissions : FlagSyncPermissions
deriving DecidableEq

/-- `MessageBackendConfig` from `src/account/config.rs`: the optional message
permissions override of one side. -/
structure MessageBackendConfig : Type where
  permissions : MessageSyncPermissions
deriving DecidableEq

/-- `BackendGlobalConfig` from `src/account/config.rs`: the full description
of one side (left or right) of the sync pair. -/
structure BackendGlobalConfig : Type where
  backend : BackendConfig
  folder : Option FolderBackendConfig
  flag : Option FlagBackendConfig
  message : Option MessageBackendConfig
deriving DecidableEq

/-- `AccountConfig` from `src/account/config.rs`: the top-level, user-facing
declaration for one account. -/
structure AccountConfig : Type where
  default : Option Bool
  folder : Option FolderConfig
  envelope : Option EnvelopeConfig
  left : BackendGlobalConfig
  right : BackendGlobalConfig
deriving DecidableEq

namespace Engine

/-- Modelled from the spec: the engine-facing folder sync sub-config,
combining the resolved filter with the side-specific permissions. -/
structure FolderSyncConfig : Type where
  filter : FolderSyncStrategy
  permissions : FolderSyncPermissions
deriving DecidableEq

/-- Modelled from the spec: the engine-facing folder configuration; fields
other than `sync` take their default value at resolution time. -/
structure FolderConfig : Type where
  sync : Option FolderSyncConfig
  aliases : List (String × String)
deriving DecidableEq

instance : Inhabited FolderConfig := ⟨⟨none, []⟩⟩

/-- Modelled from the spec: the engine-facing envelope sync sub-config; it
carries no permission dimension, only a filter. -/
structure EnvelopeSyncConfig : Type where
  filter : EnvelopeSyncFilters
deriving DecidableEq

/-- Modelled from the spec: the engine-facing envelope configuration; fields
other than `sync` take their default value at resolution time. -/
structure EnvelopeConfig : Type where
  sync : Option EnvelopeSyncConfig
  list_page_size : Option Nat
deriving DecidableEq

instance : Inhabited EnvelopeConfig := ⟨⟨none, none⟩⟩

/-- Modelled from the spec: the engine-facing flag sync sub-config. -/
structure FlagSyncConfig : Type where
  permissions : FlagSyncPermissions
deriving DecidableEq

/-- Modelled from the spec: the engine-facing flag configuration. -/
structure FlagConfig : Type where
  sync : Option FlagSyncConfig
deriving DecidableEq

instance : Inhabited FlagConfig := ⟨⟨none⟩⟩

/-- Modelled from the spec: the engine-facing message sync sub-config. -/
structure MessageSyncConfig : Type where
  permissions : MessageSyncPermissions
deriving DecidableEq

/-- Modelled from the spec: the engine-facing message configuration; fields
other than `sync` take their default value at resolution time. -/
structure MessageConfig : Type where
  sync : Option MessageSyncConfig
  write_headers : Option (List String)
deriving DecidableEq

instance : Inhabited MessageConfig := ⟨⟨none, none⟩⟩

/-- Modelled from the spec: the engine-facing account configuration, the
fully-resolved, default-filled object consumed by the synchronization
engine; fields beyond the five populated ones take their default value. -/
structure AccountConfig : Type where
  name : String
  folder : Option FolderConfig
  envelope : Option EnvelopeConfig
  flag : Option FlagConfig
  message : Option MessageConfig
  downloads_dir : Option String
deriving DecidableEq

/-- The folder sync permissions carried by an engine-facing account
configuration, when folder sync is configured. -/
def AccountConfig.folderSyncPermissions (c : AccountConfig) :
    Option FolderSyncPermissions :=
  c.folder.bind fun f => f.sync.map fun s => s.permissions

/-- The folder sync filter carried by an engine-facing account
configuration, when folder sync is configured. -/
def AccountConfig.folderSyncFilter (c : AccountConfig) :
    Option FolderSyncStrategy :=
  c.folder.bind fun f => f.sync.map fun s => s.filter

/-- The flag sync permissions carried by an engine-facing account
configuration, when flag sync is configured. -/
def AccountConfig.flagSyncPermissions (c : AccountConfig) :
    Option FlagSyncPermissions :=
  c.flag.bind fun f => f.sync.map fun s => s.permissions

/-- The message sync permissions carried by an engine-facing account
configuration, when message sync is configured. -/
def AccountConfig.messageSyncPermissions (c : AccountConfig) :
    Option MessageSyncPermissions :=
  c.message.bind fun f => f.sync.map fun s => s.permissions

end Engine

/-- `BackendGlobalConfig::into_account_config` from `src/account/config.rs`:
extracts the backend variant and builds the engine-facing account
configuration, threading the caller-supplied filters and resolving each
absent permission override to the permission type's default value. -/
def BackendGlobalConfig.into_account_config (self : BackendGlobalConfig)
    (name : String) (folder_filter : FolderSyncStrategy)
    (envelope_filter : EnvelopeSyncFilters) :
    BackendConfig × Engine.AccountConfig :=
  (self.backend,
    { name := name
      folder := some
        { sync := some
            { filter := folder_filter
              permissions :=
                (self.folder.map FolderBackendConfig.permissions).getD default }
          aliases := [] }
      envelope := some
        { sync := some { filter := envelope_filter }
          list_page_size := none }
      flag := some
        { sync := some
            { permissions :=
                (self.flag.map FlagBackendConfig.permissions).getD default } }
      message := some
        { sync := some
            { permissions :=
                (self.message.map MessageBackendConfig.permissions).getD default }
          write_headers := none }
      downloads_dir := none })

/-- The shape of the external credential-store operation consumed by
`configure`: given an account name and an authentication sub-configuration,
it yields the updated sub-configuration or fails. -/
abbrev AuthReplace : Type := String → ImapAuthConfig → Except String ImapAuthConfig

/-- One match arm of `AccountConfig::configure` from `src/account/config.rs`,
applied to one side's backend: on the IMAP variant the credential-store
operation is applied to the authentication sub-configuration, every other
variant is a no-op. -/
def configureBackendSide (replace : AuthReplace) (account_name : String) :
    BackendConfig → Except String BackendConfig
  | BackendConfig.imap config =>
    match replace account_name config.auth with
    | Except.error e => Except.error e
    | Except.ok auth => Except.ok (BackendConfig.imap { config with auth := auth })
  | b => Except.ok b

/-- `AccountConfig::configure` from `src/account/config.rs`, with the
external credential-store call passed as a parameter and the `&mut self`
receiver made explicit: the second component is the receiver's state after
the call, whether it succeeded or failed.  The left side is processed first;
the `?` operator returns the first error, leaving the remaining state as it
was at that point. -/
def AccountConfig.configure (self : AccountConfig) (replace : AuthReplace)
    (account_name : String) : Except String Unit × AccountConfig :=
  match configureBackendSide replace account_name self.left.backend with
  | Except.error e => (Except.error e, self)
  | Except.ok lb =>
    match configureBackendSide replace account_name self.right.backend with
    | Except.error e =>
      (Except.error e, { self with left := { self.left with backend := lb } })
    | Except.ok rb =>
      (Except.ok (),
        { self with
          left := { self.left with backend := lb }
          right := { self.right with backend := rb } })

/-- Modelled from the spec: resolve one secret-storage entry — an undefined
entry becomes a default reference derived deterministically from the account
name, a defined entry is kept. -/
def resolveKeyringEntry (account_name : String) : KeyringEntry → KeyringEntry
  | KeyringEntry.undefined => KeyringEntry.defined account_name
  | KeyringEntry.defined secret => KeyringEntry.defined secret

/-- Modelled from the spec: the external
`replace_undefined_keyring_entries` operation of the `email` crate —
replaces each undefined secret-storage entry of the authentication
sub-configuration with a default reference derived deterministically from
the account name. -/
def replace_undefined_keyring_entries : AuthReplace :=
  fun account_name auth =>
    Except.ok { auth with entries := auth.entries.map (resolveKeyringEntry account_name) }

/-- The effect of `configure` on one side's backend under the modelled
credential-store operation: undefined entries of an IMAP authentication
sub-configuration are filled in, everything else is unchanged. -/
def materializeBackend (account_name : String) : BackendConfig → BackendConfig
  | BackendConfig.imap config =>
    BackendConfig.imap
      { config with
        auth := { config.auth with
          entries := config.auth.entries.map (resolveKeyringEntry account_name) } }
  | b => b

/-- The effect of `configure` on the whole account configuration under the
modelled credential-store operation. -/
def materializeAccount (account_name : String) (cfg : AccountConfig) :
    AccountConfig :=
  { cfg with
    left := { cfg.left with backend := materializeBackend account_name cfg.left.backend }
    right := { cfg.right with backend := materializeBackend account_name cfg.right.backend } }

/-- Agreement of two backend configurations everywhere except the
authentication sub-configuration: same variant, same payload apart from
`auth` on the IMAP variant. -/
def nonAuthAgrees : BackendConfig → BackendConfig → Prop
  | BackendConfig.imap c, BackendConfig.imap c' => c.host = c'.host ∧ c.port = c'.port
  | b, b' => b = b'

theorem resolveKeyringEntry_idem (n : String) (e : KeyringEntry) :
    resolveKeyringEntry n (resolveKeyringEntry n e) = resolveKeyringEntry n e := by
  cases e <;> rfl

theorem map_resolveKeyringEntry_idem (n : String) (l : List KeyringEntry) :
    (l.map (resolveKeyringEntry n)).map (resolveKeyringEntry n)
      = l.map (resolveKeyringEntry n) := by
  induction l with
  | nil => rfl
  | cons a t ih => simp [List.map, ih, resolveKeyringEntry_idem]

theorem materializeBackend_idem (n : String) (b : BackendConfig) :
    materializeBackend n (materializeBackend n b) = materializeBackend n b := by
  cases b with
  | imap c =>
    simp only [materializeBackend]
    rw [map_resolveKeyringEntry_idem]
  | maildir c => rfl
  | notmuch c => rfl

theorem materializeAccount_idem (n : String) (cfg : AccountConfig) :
    materializeAccount n (materializeAccount n cfg) = materializeAccount n cfg := by
  simp [materializeAccount, materializeBackend_idem]

theorem configureBackendSide_model (n : String) (b : BackendConfig) :
    configureBackendSide replace_undefined_keyring_entries n b
      = Except.ok (materializeBackend n b) := by
  cases b <;> rfl

theorem configure_model (n : String) (cfg : AccountConfig) :
    cfg.configure replace_undefined_keyring_entries n
      = (Except.ok (), materializeAccount n cfg) := by
  unfold AccountConfig.configure
  rw [configureBackendSide_model, configureBackendSide_model]
  rfl

theorem nonAuthAgrees_refl (b : BackendConfig) : nonAuthAgrees b b := by
  cases b with
  | imap c => exact ⟨rfl, rfl⟩
  | maildir c => exact rfl
  | notmuch c => exact rfl

theorem configureBackendSide_no_auth (replace : AuthReplace) (n : String)
    (b : BackendConfig) (h : ∀ c, b ≠ BackendConfig.imap c) :
    configureBackendSide replace n b = Except.ok b := by
  cases b with
  | imap c => exact absurd rfl (h c)
  | maildir c => rfl
  | notmuch c => rfl

theorem configureBackendSide_frame (replace : AuthReplace) (n : String)
    (b lb : BackendConfig) (h : configureBackendSide replace n b = Except.ok lb) :
    nonAuthAgrees b lb := by
  cases b with
  | imap c =>
    cases hr : replace n c.auth with
    | error e =>
      rw [configureBackendSide, hr] at h
      cases h
    | ok a =>
      rw [configureBackendSide, hr] at h
      injection h with h2
      rw [← h2]
      exact ⟨rfl, rfl⟩
  | maildir c =>
    have h' : Except.ok (BackendConfig.maildir c) = Except.ok lb := h
    injection h'
  | notmuch c =>
    have h' : Except.ok (BackendConfig.notmuch c) = Except.ok lb := h
    injection h'

/-- C1: for every `BackendGlobalConfig` whose folder (respectively flag,
message) override is absent, `into_account_config` yields an engine-facing
account config whose folder (respectively flag, message) sync permissions
equal the permission type's default value. -/
theorem into_account_config_absent_overrides_default
    (self : BackendGlobalConfig) (name : String)
    (ff : FolderSyncStrategy) (ef : EnvelopeSyncFilters) :
    (self.folder = none →
      (self.into_account_config name ff ef).2.folderSyncPermissions = some default)
    ∧ (self.flag = none →
      (self.into_account_config name ff ef).2.flagSyncPermissions = some default)
    ∧ (self.message = none →
      (self.into_account_config name ff ef).2.messageSyncPermissions = some default) := by
  refine ⟨fun h => ?_, fun h => ?_, fun h => ?_⟩ <;>
    simp [BackendGlobalConfig.into_account_config,
      Engine.AccountConfig.folderSyncPermissions,
      Engine.AccountConfig.flagSyncPermissions,
      Engine.AccountConfig.messageSyncPermissions, h]

/-- Witness for C1 at a concrete Maildir-backed side with all three
overrides absent. -/
theorem into_account_config_absent_overrides_default_witness :
    ((BackendGlobalConfig.mk (BackendConfig.maildir ⟨"/mail/a"⟩)
        none none none).into_account_config "work"
        FolderSyncStrategy.all ⟨["INBOX"]⟩).2.folderSyncPermissions = some default
    ∧ ((BackendGlobalConfig.mk (BackendConfig.maildir ⟨"/mail/a"⟩)
        none none none).into_account_config "work"
        FolderSyncStrategy.all ⟨["INBOX"]⟩).2.flagSyncPermissions = some default
    ∧ ((BackendGlobalConfig.mk (BackendConfig.maildir ⟨"/mail/a"⟩)
        none none none).into_account_config "work"
        FolderSyncStrategy.all ⟨["INBOX"]⟩).2.messageSyncPermissions = some default := by
  obtain ⟨h1, h2, h3⟩ := into_account_config_absent_overrides_default
    (BackendGlobalConfig.mk (BackendConfig.maildir ⟨"/mail/a"⟩) none none none)
    "work" FolderSyncStrategy.all ⟨["INBOX"]⟩
  exact ⟨h1 rfl, h2 rfl, h3 rfl⟩

/-- C2: for every `BackendGlobalConfig` whose folder override is present
with value `p` (and analogously for present flag and message overrides),
`into_account_config` yields an engine-facing account config whose
corresponding sync permissions equal `p.permissions` exactly. -/
theorem into_account_config_present_overrides_exact
    (self : BackendGlobalConfig) (name : String)
    (ff : FolderSyncStrategy) (ef : EnvelopeSyncFilters) :
    (∀ p, self.folder = some p →
      (self.into_account_config name ff ef).2.folderSyncPermissions = some p.permissions)
    ∧ (∀ p, self.flag = some p →
      (self.into_account_config name ff ef).2.flagSyncPermissions = some p.permissions)
    ∧ (∀ p, self.message = some p →
      (self.into_account_config name ff ef).2.messageSyncPermissions = some p.permissions) := by
  refine ⟨fun p h => ?_, fun p h => ?_, fun p h => ?_⟩ <;>
    simp [BackendGlobalConfig.into_account_config,
      Engine.AccountConfig.folderSyncPermissions,
      Engine.AccountConfig.flagSyncPermissions,
      Engine.AccountConfig.messageSyncPermissions, h]

/-- Witness for C2 at a concrete side with all three overrides present and
distinct from the defaults. -/
theorem into_account_config_present_overrides_exact_witness :
    ((BackendGlobalConfig.mk (BackendConfig.maildir ⟨"/mail/a"⟩)
        (some ⟨⟨false, true⟩⟩) (some ⟨⟨false⟩⟩)
        (some ⟨⟨true, false⟩⟩)).into_account_config "work"
        FolderSyncStrategy.all ⟨[]⟩).2.folderSyncPermissions = some ⟨false, true⟩
    ∧ ((BackendGlobalConfig.mk (BackendConfig.maildir ⟨"/mail/a"⟩)
        (some ⟨⟨false, true⟩⟩) (some ⟨⟨false⟩⟩)
        (some ⟨⟨true, false⟩⟩)).into_account_config "work"
        FolderSyncStrategy.all ⟨[]⟩).2.flagSyncPermissions = some ⟨false⟩
    ∧ ((BackendGlobalConfig.mk (BackendConfig.maildir ⟨"/mail/a"⟩)
        (some ⟨⟨false, true⟩⟩) (some ⟨⟨false⟩⟩)
        (some ⟨⟨true, false⟩⟩)).into_account_config "work"
        FolderSyncStrategy.all ⟨[]⟩).2.messageSyncPermissions = some ⟨true, false⟩ := by
  obtain ⟨h1, h2, h3⟩ := into_account_config_present_overrides_exact
    (BackendGlobalConfig.mk (BackendConfig.maildir ⟨"/mail/a"⟩)
      (some ⟨⟨false, true⟩⟩) (some ⟨⟨false⟩⟩) (some ⟨⟨true, false⟩⟩))
    "work" FolderSyncStrategy.all ⟨[]⟩
  exact ⟨h1 ⟨⟨false, true⟩⟩ rfl, h2 ⟨⟨false⟩⟩ rfl, h3 ⟨⟨true, false⟩⟩ rfl⟩

/-- C3: for every `BackendGlobalConfig`, the `BackendConfig` returned as the
first component of `into_account_config` equals the input's `backend` field
unchanged. -/
theorem into_account_config_backend_roundtrip
    (self : BackendGlobalConfig) (name : String)
    (ff : FolderSyncStrategy) (ef : EnvelopeSyncFilters) :
    (self.into_account_config name ff ef).1 = self.backend := rfl

/-- C4: `into_account_config` produces an engine-facing account config whose
name equals the name argument, whose envelope sync sub-config consists
solely of a filter equal to the envelope filter argument (plus defaulted
remaining envelope fields — no permission dimension), and whose folder sync
filter equals the folder filter argument. -/
theorem into_account_config_builds_engine_config
    (self : BackendGlobalConfig) (name : String)
    (ff : FolderSyncStrategy) (ef : EnvelopeSyncFilters) :
    (self.into_account_config name ff ef).2.name = name
    ∧ (self.into_account_config name ff ef).2.envelope
        = some { sync := some { filter := ef }, list_page_size := none }
    ∧ (self.into_account_config name ff ef).2.folderSyncFilter = some ff := by
  refine ⟨rfl, rfl, ?_⟩
  simp [BackendGlobalConfig.into_account_config,
    Engine.AccountConfig.folderSyncFilter]

/-- C8: `into_account_config` is deterministic and total — structurally
equal inputs yield structurally equal outputs, and the result type carries
no error case, so the function cannot fail. -/
theorem into_account_config_deterministic
    (s s' : BackendGlobalConfig) (n n' : String)
    (ff ff' : FolderSyncStrategy) (ef ef' : EnvelopeSyncFilters)
    (hs : s = s') (hn : n = n') (hf : ff = ff') (he : ef = ef') :
    s.into_account_config n ff ef = s'.into_account_config n' ff' ef' := by
  subst hs hn hf he; rfl

/-- Witness for C8 at a concrete input, applied to two structurally equal
copies. -/
theorem into_account_config_deterministic_witness :
    (BackendGlobalConfig.mk (BackendConfig.notmuch ⟨"/db"⟩) none none
        none).into_account_config "work" FolderSyncStrategy.all ⟨[]⟩
      = (BackendGlobalConfig.mk (BackendConfig.notmuch ⟨"/db"⟩) none none
        none).into_account_config "work" FolderSyncStrategy.all ⟨[]⟩ :=
  into_account_config_deterministic
    (BackendGlobalConfig.mk (BackendConfig.notmuch ⟨"/db"⟩) none none none)
    (BackendGlobalConfig.mk (BackendConfig.notmuch ⟨"/db"⟩) none none none)
    "work" "work" FolderSyncStrategy.all FolderSyncStrategy.all ⟨[]⟩ ⟨[]⟩
    rfl rfl rfl rfl

/-- C5: for every `AccountConfig` and account name, if `configure` (under
the modelled credential-store operation) succeeds once, calling it a second
time with the same name leaves the configuration unchanged. -/
theorem configure_idempotent (cfg cfg' : AccountConfig) (n : String)
    (h : cfg.configure replace_undefined_keyring_entries n = (Except.ok (), cfg')) :
    cfg'.configure replace_undefined_keyring_entries n = (Except.ok (), cfg') := by
  rw [configure_model] at h
  have h2 : materializeAccount n cfg = cfg' := congrArg Prod.snd h
  rw [configure_model, ← h2, materializeAccount_idem]

/-- Witness for C5: a concrete account whose left IMAP keyring entry was
materialized by a first call; the second call is a no-op. -/
theorem configure_idempotent_witness :
    (AccountConfig.mk none none none
        ⟨BackendConfig.imap ⟨"imap.example", 993,
          ⟨[KeyringEntry.defined "work"]⟩⟩, none, none, none⟩
        ⟨BackendConfig.maildir ⟨"/mail/a"⟩, none, none, none⟩).configure
      replace_undefined_keyring_entries "work"
      = (Except.ok (), AccountConfig.mk none none none
        ⟨BackendConfig.imap ⟨"imap.example", 993,
          ⟨[KeyringEntry.defined "work"]⟩⟩, none, none, none⟩
        ⟨BackendConfig.maildir ⟨"/mail/a"⟩, none, none, none⟩) :=
  configure_idempotent
    (AccountConfig.mk none none none
      ⟨BackendConfig.imap ⟨"imap.example", 993,
        ⟨[KeyringEntry.undefined]⟩⟩, none, none, none⟩
      ⟨BackendConfig.maildir ⟨"/mail/a"⟩, none, none, none⟩)
    (AccountConfig.mk none none none
      ⟨BackendConfig.imap ⟨"imap.example", 993,
        ⟨[KeyringEntry.defined "work"]⟩⟩, none, none, none⟩
      ⟨BackendConfig.maildir ⟨"/mail/a"⟩, none, none, none⟩)
    "work" rfl

/-- C6: `configure` does not modify any side whose backend variant lacks an
authentication concept (Maildir and Notmuch fall into the no-op match arm),
for an arbitrary credential-store operation. -/
theorem configure_no_auth_sides_untouched (replace : AuthReplace)
    (n : String) (cfg : AccountConfig) :
    ((∀ c, cfg.left.backend ≠ BackendConfig.imap c) →
      (cfg.configure replace n).2.left = cfg.left)
    ∧ ((∀ c, cfg.right.backend ≠ BackendConfig.imap c) →
      (cfg.configure replace n).2.right = cfg.right) := by
  constructor
  · intro h
    unfold AccountConfig.configure
    rw [configureBackendSide_no_auth replace n cfg.left.backend h]
    cases hr : configureBackendSide replace n cfg.right.backend with
    | error e => rfl
    | ok rb => rfl
  · intro h
    unfold AccountConfig.configure
    cases hl : configureBackendSide replace n cfg.left.backend with
    | error e => rfl
    | ok lb =>
      rw [configureBackendSide_no_auth replace n cfg.right.backend h]

/-- Witness for C6: a Maildir left side and a Notmuch right side are both
unchanged by `configure`. -/
theorem configure_no_auth_sides_untouched_witness :
    ((AccountConfig.mk none none none
        ⟨BackendConfig.maildir ⟨"/mail/a"⟩, none, none, none⟩
        ⟨BackendConfig.notmuch ⟨"/db"⟩, none, none, none⟩).configure
        replace_undefined_keyring_entries "work").2.left
      = ⟨BackendConfig.maildir ⟨"/mail/a"⟩, none, none, none⟩
    ∧ ((AccountConfig.mk none none none
        ⟨BackendConfig.maildir ⟨"/mail/a"⟩, none, none, none⟩
        ⟨BackendConfig.notmuch ⟨"/db"⟩, none, none, none⟩).configure
        replace_undefined_keyring_entries "work").2.right
      = ⟨BackendConfig.notmuch ⟨"/db"⟩, none, none, none⟩ := by
  obtain ⟨h1, h2⟩ := configure_no_auth_sides_untouched
    replace_undefined_keyring_entries "work"
    (AccountConfig.mk none none none
      ⟨BackendConfig.maildir ⟨"/mail/a"⟩, none, none, none⟩
      ⟨BackendConfig.notmuch ⟨"/db"⟩, none, none, none⟩)
  exact ⟨h1 (fun c h => BackendConfig.noConfusion h),
    h2 (fun c h => BackendConfig.noConfusion h)⟩

/-- Counterexample to C7: with a credential-store operation that fails on
the left side's authentication entries but would succeed on the right
side's, `configure` returns the left error while the right side's keyring
entry stays undefined — the right side is not attempted, so it is false
that both sides are always attempted. -/
theorem configure_both_sides_attempted_cex :
    ((AccountConfig.mk none none none
        ⟨BackendConfig.imap ⟨"left.example", 993,
          ⟨[KeyringEntry.undefined, KeyringEntry.undefined]⟩⟩, none, none, none⟩
        ⟨BackendConfig.imap ⟨"right.example", 993,
          ⟨[KeyringEntry.undefined]⟩⟩, none, none, none⟩).configure
        (fun nm a =>
          if 2 ≤ a.entries.length then Except.error "cannot build entry"
          else Except.ok ⟨a.entries.map (resolveKeyringEntry nm)⟩) "work").1
      = Except.error "cannot build entry"
    ∧ (fun (nm : String) (a : ImapAuthConfig) =>
        if 2 ≤ a.entries.length then Except.error "cannot build entry"
        else Except.ok (⟨a.entries.map (resolveKeyringEntry nm)⟩ : ImapAuthConfig))
        "work" ⟨[KeyringEntry.undefined]⟩
      = Except.ok ⟨[KeyringEntry.defined "work"]⟩
    ∧ ((AccountConfig.mk none none none
        ⟨BackendConfig.imap ⟨"left.example", 993,
          ⟨[KeyringEntry.undefined, KeyringEntry.undefined]⟩⟩, none, none, none⟩
        ⟨BackendConfig.imap ⟨"right.example", 993,
          ⟨[KeyringEntry.undefined]⟩⟩, none, none, none⟩).configure
        (fun nm a =>
          if 2 ≤ a.entries.length then Except.error "cannot build entry"
          else Except.ok ⟨a.entries.map (resolveKeyringEntry nm)⟩) "work").2.right.backend
      = BackendConfig.imap ⟨"right.example", 993, ⟨[KeyringEntry.undefined]⟩⟩ :=
  ⟨rfl, rfl, rfl⟩

/-- C7 (amended): the left side is attempted first, and a credential
failure on the left is reported to the caller immediately, short-circuiting
so that the right side is not attempted and the configuration is returned
as it was at the failure point. -/
theorem configure_left_failure_short_circuits (replace : AuthReplace)
    (n : String) (cfg : AccountConfig) (c : ImapConfig) (e : String)
    (hb : cfg.left.backend = BackendConfig.imap c)
    (he : replace n c.auth = Except.error e) :
    cfg.configure replace n = (Except.error e, cfg) := by
  have hstep : configureBackendSide replace n cfg.left.backend = Except.error e := by
    rw [hb, configureBackendSide, he]
  unfold AccountConfig.configure
  rw [hstep]

/-- Witness for the amended C7 at a concrete failing credential-store
operation. -/
theorem configure_left_failure_short_circuits_witness :
    (AccountConfig.mk none none none
        ⟨BackendConfig.imap ⟨"left.example", 993,
          ⟨[KeyringEntry.undefined]⟩⟩, none, none, none⟩
        ⟨BackendConfig.notmuch ⟨"/db"⟩, none, none, none⟩).configure
      (fun _ _ => Except.error "denied") "work"
      = (Except.error "denied", AccountConfig.mk none none none
        ⟨BackendConfig.imap ⟨"left.example", 993,
          ⟨[KeyringEntry.undefined]⟩⟩, none, none, none⟩
        ⟨BackendConfig.notmuch ⟨"/db"⟩, none, none, none⟩) :=
  configure_left_failure_short_circuits
    (fun _ _ => Except.error "denied") "work"
    (AccountConfig.mk none none none
      ⟨BackendConfig.imap ⟨"left.example", 993,
        ⟨[KeyringEntry.undefined]⟩⟩, none, none, none⟩
      ⟨BackendConfig.notmuch ⟨"/db"⟩, none, none, none⟩)
    ⟨"left.example", 993, ⟨[KeyringEntry.undefined]⟩⟩ "denied" rfl rfl

/-- C9: `configure` mutates at most the authentication sub-configuration
inside the two sides' backends — the top-level fields and each side's
folder, flag and message overrides are unchanged, and the backends agree
with the originals everywhere outside authentication, whether the call
succeeds or fails. -/
theorem configure_frame (replace : AuthReplace) (n : String)
    (cfg : AccountConfig) :
    (cfg.configure replace n).2.default = cfg.default
    ∧ (cfg.configure replace n).2.folder = cfg.folder
    ∧ (cfg.configure replace n).2.envelope = cfg.envelope
    ∧ (cfg.configure replace n).2.left.folder = cfg.left.folder
    ∧ (cfg.configure replace n).2.left.flag = cfg.left.flag
    ∧ (cfg.configure replace n).2.left.message = cfg.left.message
    ∧ (cfg.configure replace n).2.right.folder = cfg.right.folder
    ∧ (cfg.configure replace n).2.right.flag = cfg.right.flag
    ∧ (cfg.configure replace n).2.right.message = cfg.right.message
    ∧ nonAuthAgrees cfg.left.backend (cfg.configure replace n).2.left.backend
    ∧ nonAuthAgrees cfg.right.backend (cfg.configure replace n).2.right.backend := by
  unfold AccountConfig.configure
  cases hl : configureBackendSide replace n cfg.left.backend with
  | error e =>
    exact ⟨rfl, rfl, rfl, rfl, rfl, rfl, rfl, rfl, rfl,
      nonAuthAgrees_refl cfg.left.backend, nonAuthAgrees_refl cfg.right.backend⟩
  | ok lb =>
    cases hr : configureBackendSide replace n cfg.right.backend with
    | error e =>
      exact ⟨rfl, rfl, rfl, rfl, rfl, rfl, rfl, rfl, rfl,
        configureBackendSide_frame replace n cfg.left.backend lb hl,
        nonAuthAgrees_refl cfg.right.backend⟩
    | ok rb =>
      exact ⟨rfl, rfl, rfl, rfl, rfl, rfl, rfl, rfl, rfl,
        configureBackendSide_frame replace n cfg.left.backend lb hl,
        configureBackendSide_frame replace n cfg.right.backend rb hr⟩

/-- C10: if the keyring-entry replacement for the left backend fails,
`configure` returns that error and the right side is left exactly as it was
before the call. -/
theorem configure_left_failure_right_untouched (replace : AuthReplace)
    (n : String) (cfg : AccountConfig) (c : ImapConfig) (e : String)
    (hb : cfg.left.backend = BackendConfig.imap c)
    (he : replace n c.auth = Except.error e) :
    (cfg.configure replace n).1 = Except.error e
    ∧ (cfg.configure replace n).2.right = cfg.right := by
  have hstep : configureBackendSide replace n cfg.left.backend = Except.error e := by
    rw [hb, configureBackendSide, he]
  unfold AccountConfig.configure
  rw [hstep]
  exact ⟨rfl, rfl⟩

/-- Witness for C10 at a concrete failing credential-store operation: the
error is surfaced and the right side is untouched. -/
theorem configure_left_failure_right_untouched_witness :
    ((AccountConfig.mk none none none
        ⟨BackendConfig.imap ⟨"imap.example", 143,
          ⟨[KeyringEntry.undefined]⟩⟩, none, none, none⟩
        ⟨BackendConfig.imap ⟨"other.example", 993,
          ⟨[KeyringEntry.undefined]⟩⟩, none, none, none⟩).configure
      (fun _ _ => Except.error "keyring failure") "personal").1
      = Except.error "keyring failure"
    ∧ ((AccountConfig.mk none none none
        ⟨BackendConfig.imap ⟨"imap.example", 143,
          ⟨[KeyringEntry.undefined]⟩⟩, none, none, none⟩
        ⟨BackendConfig.imap ⟨"other.example", 993,
          ⟨[KeyringEntry.undefined]⟩⟩, none, none, none⟩).configure
      (fun _ _ => Except.error "keyring failure") "personal").2.right
      = ⟨BackendConfig.imap ⟨"other.example", 993,
          ⟨[KeyringEntry.undefined]⟩⟩, none, none, none⟩ :=
  configure_left_failure_right_untouched
    (fun _ _ => Except.error "keyring failure") "personal"
    (AccountConfig.mk none none none
      ⟨BackendConfig.imap ⟨"imap.example", 143,
        ⟨[KeyringEntry.undefined]⟩⟩, none, none, none⟩
      ⟨BackendConfig.imap ⟨"other.example", 993,
        ⟨[KeyringEntry.undefined]⟩⟩, none, none, none⟩)
    ⟨"imap.example", 143, ⟨[KeyringEntry.undefined]⟩⟩ "keyring failure" rfl rfl

end Neverest
